import Mathlib

/-!
Verification of the Playwright MCP automation server and its orchestrator-side
transport bridge, shallowly embedded from `src/mcp-server.js` (the primary,
multi-strategy server variant) and `src/ai-integration.js`.

Browser-world behavior (what Playwright calls return or throw on a given page)
is modelled as explicit function-valued fields of a `PageModel` / `World`
record; the driver's own control flow, string formatting, candidate lists,
action log, and error handling are translated statement-for-statement from the
JavaScript source.
-/

namespace PWMCP

/-! ## Result envelopes and action records -/

/-- One item of an MCP tool-result envelope: `{ type, text }`. -/
structure ContentItem where
  type : String
  text : String
deriving DecidableEq, Repr

/-- An MCP tool result envelope `{ content: [...] }`. -/
structure ToolResult where
  content : List ContentItem
deriving DecidableEq, Repr

/-- Build the usual single-text-item envelope used throughout `mcp-server.js`. -/
def textResult (s : String) : ToolResult := ⟨[⟨"text", s⟩]⟩

/-- One record of the driver's internal action log (`this.actions`).  The JS
records are heterogeneous objects; absent properties are `none`. -/
structure ActionRecord where
  type : String
  url : Option String := none
  selector : Option String := none
  text : Option String := none
  actualValue : Option String := none
  filename : Option String := none
  query : Option String := none
  strategy : Option String := none
  code : String := ""
deriving DecidableEq, Repr

/-! ## Browser-world model

`PageModel` captures the observable behavior of `this.page`: for each
Playwright call the driver makes, a field gives its outcome (`none` /
`Except.ok` for success, an error message for a throw).  The current URL and
title are plain fields. -/

/-- Result of the `page.evaluate` DOM walk in `inspectPage`: the element
counts and the `JSON.stringify(inspection, null, 2)` text.  The DOM-side
callback runs in the browser, so it is world behavior, not driver code. -/
structure InspectSummary where
  formsLen : Nat
  inputsLen : Nat
  buttonsLen : Nat
  json : String
deriving DecidableEq, Repr

/-- Behavior of the live page handle.  Function fields model the outcome of
the corresponding Playwright call: `Option String` is the thrown message
(`none` = success), `Except String α` is throw-or-value. -/
structure PageModel where
  /-- `this.page.url()` -/
  url : String
  /-- `this.page.title()` -/
  titleStr : String
  /-- `this.page.content().length` -/
  contentLen : Nat
  /-- `page.goto(url)`: error, or the URL the page lands on. -/
  gotoResult : String → Except String String
  /-- `page.waitForSelector(sel, { timeout, state: 'visible' })` -/
  waitErr : String → Nat → Option String
  /-- `page.waitForSelector(sel, { timeout })` (no state option; `waitForElement`) -/
  waitPlainErr : String → Nat → Option String
  /-- `locator(sel).isVisible()` -/
  visible : String → Bool
  /-- `locator(sel).isEnabled()` -/
  enabled : String → Bool
  /-- `scrollIntoViewIfNeeded()` followed by `click()` on the located element -/
  clickErr : String → Option String
  /-- `page.fill(sel, '')` (the clearing fill) -/
  clearErr : String → Option String
  /-- `page.fill(sel, text)` -/
  fillErr : String → String → Option String
  /-- `page.inputValue(sel)` -/
  readValue : String → Except String String
  /-- the `$$eval` over clickable-looking elements in `clickElement`'s
  exhaustion branch: error, or the `JSON.stringify` of the descriptions. -/
  clickablesDiag : Except String String
  /-- the `$$eval` over `input, textarea, select` in `fillInput`'s
  exhaustion branch. -/
  inputsDiag : Except String String
  /-- `page.screenshot({ path: filename })` -/
  screenshotErr : String → Option String
  /-- `page.evaluate(domWalk, elementType)` in `inspectPage` -/
  inspectEval : String → Except String InspectSummary
  /-- outcome of GitHub search strategy 1 (the search-input selector loop);
  on success the value is the selector that matched. -/
  ghStrategy1 : Except String String
  /-- outcome of strategy 2 (keyboard shortcut); success returns
  `'keyboard-shortcut'` in the source. -/
  ghStrategy2Err : Option String
  /-- outcome of strategy 3 (direct search-URL navigation); success returns
  `'direct-url'` in the source. -/
  ghStrategy3Err : Option String

/-- Behavior of the browser-level calls made outside any page. -/
structure World where
  /-- `chromium.launch({ headless })` -/
  launchErr : Bool → Option String
  /-- `this.browser.newPage()` -/
  newPage : Except String PageModel
  /-- `this.browser.close()` -/
  closeErr : Option String

/-- The driver's mutable state: `this.browser` (modelled as a liveness flag),
`this.page`, and the action log `this.actions`. -/
structure DriverState where
  browser : Bool
  page : Option PageModel
  actions : List ActionRecord

/-- The precondition error thrown by every session-requiring operation. -/
def browserNotLaunchedMsg : String :=
  "Browser not launched. Call launch_browser first."

/-! ## Selector candidate lists (click / fill)

Site detection in the source is URL-substring containment
(`url.includes('github.com')`), not a parsed origin. -/

/-- Boolean list-level check that the first list occurs at the start of the
second (helper for `strIncludes`). -/
def listIsPrefixB [DecidableEq α] : List α → List α → Bool
  | [], _ => true
  | _ :: _, [] => false
  | a :: as, b :: bs => a = b && listIsPrefixB as bs

/-- Boolean list-level check that `pat` occurs contiguously somewhere in the
list (helper for `strIncludes`). -/
def listHasInfixB [DecidableEq α] (pat : List α) : List α → Bool
  | [] => listIsPrefixB pat []
  | b :: bs => listIsPrefixB pat (b :: bs) || listHasInfixB pat bs

/-- JS `s.includes(pat)`: substring containment. -/
def strIncludes (s pat : String) : Bool := listHasInfixB pat.data s.data

/-- `alternativeSelectors.github` in `clickElement`. -/
def githubClickSelectors : List String :=
  ["[data-target=\"query-builder.input\"]",
   "input[name=\"q\"]",
   "#query-builder-test",
   "input[placeholder*=\"Search\"]",
   "input[aria-label*=\"Search\"]",
   "button[type=\"submit\"]",
   "[data-testid=\"search-button\"]"]

/-- `alternativeSelectors.github` in `fillInput`. -/
def githubFillSelectors : List String :=
  ["[data-target=\"query-builder.input\"]",
   "input[name=\"q\"]",
   "#query-builder-test",
   "input[placeholder*=\"Search\"]",
   "input[aria-label*=\"Search\"]"]

/-- `alternativeSelectors.google` in `fillInput`. -/
def googleFillSelectors : List String :=
  ["input[name=\"q\"]",
   "textarea[name=\"q\"]",
   "input[title=\"Search\"]"]

/-- `selectorsToTry` as built in `clickElement`. -/
def clickSelectorsToTry (url selector : String) : List String :=
  if strIncludes url "github.com" then githubClickSelectors ++ [selector]
  else [selector]

/-- `selectorsToTry` as built in `fillInput`. -/
def fillSelectorsToTry (url selector : String) : List String :=
  if strIncludes url "github.com" then githubFillSelectors ++ [selector]
  else if strIncludes url "google.com" then googleFillSelectors ++ [selector]
  else [selector]

/-- The site-specific known-good selector list for a URL (click), as the spec
phrases it; compared against `clickSelectorsToTry` in the claim theorem. -/
def siteClickSelectors (url : String) : List String :=
  if strIncludes url "github.com" then githubClickSelectors else []

/-- The site-specific known-good selector list for a URL (fill). -/
def siteFillSelectors (url : String) : List String :=
  if strIncludes url "github.com" then githubFillSelectors
  else if strIncludes url "google.com" then googleFillSelectors
  else []

/-- `Array.prototype.join(', ')` as used on `selectorsToTry`. -/
def joinSelectors : List String → String
  | [] => ""
  | [s] => s
  | s :: rest => s ++ ", " ++ joinSelectors rest

/-! ## Per-candidate attempts -/

/-- One iteration of `clickElement`'s candidate loop: wait for visibility
(per-candidate timeout `Math.min(timeout, 5000)`), check `isVisible` and
`isEnabled`, scroll into view, click.  Returns the thrown message on failure. -/
def tryClickCandidate (pg : PageModel) (timeout : Nat) (c : String) :
    Except String Unit :=
  match pg.waitErr c (min timeout 5000) with
  | some e => .error e
  | none =>
    if ¬ pg.visible c then .error ("Element " ++ c ++ " is not visible")
    else if ¬ pg.enabled c then
      .error ("Element " ++ c ++ " is not enabled/clickable")
    else
      match pg.clickErr c with
      | some e => .error e
      | none => .ok ()

/-- One iteration of `fillInput`'s candidate loop: wait for visibility (fixed
5000ms), check `isVisible`, clear, fill, then re-read with `inputValue`.
On success returns the value read back from the field. -/
def tryFillCandidate (pg : PageModel) (text : String) (c : String) :
    Except String String :=
  match pg.waitErr c 5000 with
  | some e => .error e
  | none =>
    if ¬ pg.visible c then .error ("Element " ++ c ++ " is not visible")
    else
      match pg.clearErr c with
      | some e => .error e
      | none =>
        match pg.fillErr c text with
        | some e => .error e
        | none => pg.readValue c

/-- The shared `for (const currentSelector of selectorsToTry)` loop with its
`lastError` accumulator: stops at the first candidate whose attempt succeeds
(returning that candidate and the attempt's value), otherwise returns the last
error seen. -/
def tryCandidates (attempt : String → Except String α) :
    List String → Option String → Except (Option String) (String × α)
  | [], last => .error last
  | c :: rest, _last =>
    match attempt c with
    | .ok v => .ok (c, v)
    | .error e => tryCandidates attempt rest (some e)

/-! ## Driver operations

Each operation takes the driver state and returns the thrown-or-returned
outcome together with the final state (JS exceptions leave `this` as mutated
so far, hence the explicit state in the error case too). -/

/-- The action record appended by a successful click. -/
def clickActionRecord (c : String) : ActionRecord :=
  { type := "click", selector := some c,
    code := "await page.click('" ++ c ++ "');" }

/-- The action record appended by a successful fill. -/
def fillActionRecord (c text v : String) : ActionRecord :=
  { type := "fill", selector := some c, text := some text,
    actualValue := some v,
    code := "await page.fill('" ++ c ++ "', '" ++ text ++ "');" }

/-- `launchBrowser(headless)`: no-op report if a browser is already running;
otherwise launch, open a page, and reset the action log. -/
def launchBrowser (w : World) (headless : Bool) (st : DriverState) :
    Except String ToolResult × DriverState :=
  if st.browser then
    (.ok (textResult ("Browser already running in " ++
        (if headless then "headless" else "headed") ++ " mode")), st)
  else
    match w.launchErr headless with
    | some e => (.error e, st)
    | none =>
      match w.newPage with
      | .error e => (.error e, { st with browser := true })
      | .ok pg =>
        (.ok (textResult ("Browser launched in " ++
            (if headless then "headless" else "headed") ++ " mode")),
         { browser := true, page := some pg, actions := [] })

/-- `navigateTo(url)`. -/
def navigateTo (url : String) (st : DriverState) :
    Except String ToolResult × DriverState :=
  match st.page with
  | none => (.error browserNotLaunchedMsg, st)
  | some pg =>
    match pg.gotoResult url with
    | .error e => (.error e, st)
    | .ok landed =>
      let r : ActionRecord :=
        { type := "navigate", url := some url,
          code := "await page.goto('" ++ url ++ "');" }
      (.ok (textResult ("Navigated to " ++ url)),
       { st with page := some { pg with url := landed },
                 actions := st.actions ++ [r] })

/-- `clickElement(selector, timeout)`.  Note that in the source the aggregated
exhaustion error is thrown *inside* the diagnostic `try`, so the error that
escapes is always the catch-branch form, with the aggregated message (or the
`$$eval` failure) nested as `evalError.message`. -/
def clickElement (selector : String) (timeout : Nat) (st : DriverState) :
    Except String ToolResult × DriverState :=
  match st.page with
  | none => (.error browserNotLaunchedMsg, st)
  | some pg =>
    let cands := clickSelectorsToTry pg.url selector
    match tryCandidates (tryClickCandidate pg timeout) cands none with
    | .ok (c, _) =>
      (.ok (textResult ("Successfully clicked element: " ++ c)),
       { st with actions := st.actions ++ [clickActionRecord c] })
    | .error lastErr =>
      let lastMsg := lastErr.getD ""   -- lastError is never null: cands ≠ []
      let evalMsg :=
        match pg.clickablesDiag with
        | .ok diag =>
          "Failed to click element with any selector: " ++
            joinSelectors cands ++ ". Last error: " ++ lastMsg ++
            ". Available clickable elements: " ++ diag
        | .error e => e
      (.error ("Failed to click element " ++ selector ++ ": " ++ lastMsg ++
          ". Could not inspect available elements: " ++ evalMsg), st)

/-- `fillInput(selector, text)`. -/
def fillInput (selector text : String) (st : DriverState) :
    Except String ToolResult × DriverState :=
  match st.page with
  | none => (.error browserNotLaunchedMsg, st)
  | some pg =>
    let cands := fillSelectorsToTry pg.url selector
    match tryCandidates (tryFillCandidate pg text) cands none with
    | .ok (c, v) =>
      (.ok (textResult ("Successfully filled input " ++ c ++ " with: " ++
          text ++ " (actual value: " ++ v ++ ")")),
       { st with actions := st.actions ++ [fillActionRecord c text v] })
    | .error lastErr =>
      let lastMsg := lastErr.getD ""
      let evalMsg :=
        match pg.inputsDiag with
        | .ok diag =>
          "Failed to fill input with any selector: " ++
            joinSelectors cands ++ ". Last error: " ++ lastMsg ++
            ". Available inputs: " ++ diag
        | .error e => e
      (.error ("Failed to fill input " ++ selector ++ ": " ++ lastMsg ++
          ". Could not inspect available inputs: " ++ evalMsg), st)

/-- `waitForElement(selector, timeout)`. -/
def waitForElement (selector : String) (timeout : Nat) (st : DriverState) :
    Except String ToolResult × DriverState :=
  match st.page with
  | none => (.error browserNotLaunchedMsg, st)
  | some pg =>
    match pg.waitPlainErr selector timeout with
    | some e => (.error e, st)
    | none =>
      let r : ActionRecord :=
        { type := "wait", selector := some selector,
          code := "await page.waitForSelector('" ++ selector ++ "');" }
      (.ok (textResult ("Element found: " ++ selector)),
       { st with actions := st.actions ++ [r] })

/-- `takeScreenshot(filename)`. -/
def takeScreenshot (filename : String) (st : DriverState) :
    Except String ToolResult × DriverState :=
  match st.page with
  | none => (.error browserNotLaunchedMsg, st)
  | some pg =>
    match pg.screenshotErr filename with
    | some e => (.error e, st)
    | none =>
      let r : ActionRecord :=
        { type := "screenshot", filename := some filename,
          code := "await page.screenshot(\x7b path: '" ++ filename ++ "' \x7d);" }
      (.ok (textResult ("Screenshot saved as " ++ filename)),
       { st with actions := st.actions ++ [r] })

/-- `githubSearch(query)`: three strategies in order; the post-success wait
for a results selector is tolerated either way and has no observable effect
on the driver state, so it is not represented. -/
def githubSearch (query : String) (st : DriverState) :
    Except String ToolResult × DriverState :=
  match st.page with
  | none => (.error browserNotLaunchedMsg, st)
  | some pg =>
    let stratOutcome : Except String String :=
      match pg.ghStrategy1 with
      | .ok s => .ok s
      | .error _ =>
        match pg.ghStrategy2Err with
        | none => .ok "keyboard-shortcut"
        | some _ =>
          match pg.ghStrategy3Err with
          | none => .ok "direct-url"
          | some e3 =>
            .error ("All GitHub search strategies failed. Last error: " ++ e3)
    match stratOutcome with
    | .error msg =>
      (.error ("GitHub search failed: " ++ msg ++ ". Current URL: " ++
          pg.url ++ ", Page title: " ++ pg.titleStr), st)
    | .ok strat =>
      let r : ActionRecord :=
        { type := "github_search", query := some query,
          strategy := some strat,
          code := "// GitHub search for: " ++ query ++
                  " using strategy: " ++ strat }
      (.ok (textResult ("Successfully performed GitHub search for \"" ++
          query ++ "\" using strategy: " ++ strat)),
       { st with actions := st.actions ++ [r] })

/-- `inspectPage(elementType)`. -/
def inspectPage (elementType : String) (st : DriverState) :
    Except String ToolResult × DriverState :=
  match st.page with
  | none => (.error browserNotLaunchedMsg, st)
  | some pg =>
    match pg.inspectEval elementType with
    | .error e => (.error e, st)
    | .ok r =>
      (.ok (textResult ("Page inspection complete. Found " ++
          toString r.formsLen ++ " forms, " ++ toString r.inputsLen ++
          " inputs, " ++ toString r.buttonsLen ++
          " buttons.\n\nDetailed inspection:\n" ++ r.json)), st)

/-- `getPageContent()`. -/
def getPageContent (st : DriverState) :
    Except String ToolResult × DriverState :=
  match st.page with
  | none => (.error browserNotLaunchedMsg, st)
  | some pg =>
    (.ok (textResult ("Page Title: " ++ pg.titleStr ++ "\nURL: " ++ pg.url ++
        "\nContent Length: " ++ toString pg.contentLen ++ " characters")), st)

/-! ## Script generation

`generatePlaywrightTest` is fed either the internal log (records carrying a
literal `code` fragment) or orchestrator-level `{name, arguments}` records.
`JAction` models the JS duck-typed action value it inspects. -/

/-- Orchestrator-level `arguments` payload of an action. -/
structure JArgs where
  url : Option String := none
  selector : Option String := none
  text : Option String := none
  filename : Option String := none
  query : Option String := none
deriving DecidableEq, Repr

/-- A JS action value as seen by the generator: it may carry a literal
`code` fragment, a `name`/`arguments` pair, both, or neither. -/
structure JAction where
  code : Option String := none
  name : Option String := none
  arguments : Option JArgs := none
deriving DecidableEq, Repr

/-- JS template-literal rendering of a possibly-`undefined` string. -/
def jsStr : Option String → String
  | some s => s
  | none => "undefined"

/-- JS truthiness of a possibly-`undefined` string (empty string is falsy). -/
def truthyStr : Option String → Bool
  | some s => s ≠ ""
  | none => false

/-- `convertActionToPlaywrightCode(action)`: the per-tool-name translation
table (a JS `switch` on `action.name`, modelled as the equivalent sequential
comparison chain); `none` is the source's `null` (no output line). -/
def convertActionToPlaywrightCode (a : JAction) : Option String :=
  let args := a.arguments.getD {}
  if a.name = some "launch_browser" then none
  else if a.name = some "navigate_to" then
    some ("await page.goto('" ++ jsStr args.url ++ "');")
  else if a.name = some "click_element" then
    some ("await page.click('" ++ jsStr args.selector ++ "');")
  else if a.name = some "fill_input" then
    some ("await page.fill('" ++ jsStr args.selector ++ "', '" ++
      jsStr args.text ++ "');")
  else if a.name = some "wait_for_element" then
    some ("await page.waitForSelector('" ++ jsStr args.selector ++ "');")
  else if a.name = some "take_screenshot" then
    -- const filename = action.arguments.filename || 'screenshot.png';
    let filename :=
      match args.filename with
      | some f => if f = "" then "screenshot.png" else f
      | none => "screenshot.png"
    some ("await page.screenshot(\x7b path: '" ++ filename ++ "' \x7d);")
  else if a.name = some "github_search" then
    some ("await page.fill('[data-target=\"query-builder.input\"]', '" ++
      jsStr args.query ++ "');\n  await page.press('[data-target=\"query-builder.input\"]', 'Enter');")
  else if a.name = some "inspect_page" then none
  else if a.name = some "get_page_content" then none
  else if a.name = some "close_browser" then none
  else some ("// Unsupported action: " ++ jsStr a.name)

/-- The text contributed to the script body by one action (the `forEach`
body of `generatePlaywrightTest`): a literal `code` fragment if truthy,
else the translation of a `{name, arguments}` record, else nothing. -/
def actionLine (a : JAction) : String :=
  if truthyStr a.code then "  " ++ a.code.getD "" ++ "\n"
  else if truthyStr a.name && a.arguments.isSome then
    match convertActionToPlaywrightCode a with
    | some pw => "  " ++ pw ++ "\n"
    | none => ""
  else ""

/-- `generatePlaywrightTest(testName, description, actions)`. -/
def generatePlaywrightTest (testName description : String)
    (actions : List JAction) : String :=
  let testDescription := if description = "" then testName else description
  let header := "import \x7b test, expect \x7d from '@playwright/test';\n\n" ++
    "test('" ++ testDescription ++ "', async (\x7b page \x7d) => \x7b\n"
  header ++ String.join (actions.map actionLine) ++ "\x7d);\n"

/-- View an internal log record the way the generator's duck typing sees it:
it carries a `code` property and no `name`/`arguments`. -/
def recToJAction (r : ActionRecord) : JAction :=
  { code := some r.code }

/-- `generateTest(testName, description, providedActions)`: uses the provided
list when one is given (`providedActions || this.actions`; any array,
including an empty one, is truthy), else the internal log.  No session is
required. -/
def generateTest (testName : String) (description : Option String)
    (provided : Option (List JAction)) (st : DriverState) :
    Except String ToolResult × DriverState :=
  let actionsToUse :=
    match provided with
    | some l => l
    | none => st.actions.map recToJAction
  (.ok (textResult
      (generatePlaywrightTest testName (description.getD "") actionsToUse)),
   st)

/-- `closeBrowser()`. -/
def closeBrowser (w : World) (st : DriverState) :
    Except String ToolResult × DriverState :=
  if st.browser then
    match w.closeErr with
    | some e => (.error e, st)
    | none =>
      (.ok (textResult "Browser closed successfully"),
       { browser := false, page := none, actions := [] })
  else
    (.ok (textResult "No browser to close"), st)

/-! ## The request router (`CallToolRequestSchema` handler) -/

/-- The argument payload of a tool call.  Optional JS arguments are `Option`;
arguments the schemas mark `required` are modelled as present strings. -/
structure ToolArgs where
  headless : Option Bool := none
  url : String := ""
  selector : String := ""
  text : String := ""
  timeout : Option Nat := none
  filename : Option String := none
  query : String := ""
  elementType : Option String := none
  testName : String := ""
  description : Option String := none
  actions : Option (List JAction) := none

/-- `args?.elementType || 'all'` (empty string is falsy). -/
def elementTypeOrAll : Option String → String
  | some s => if s = "" then "all" else s
  | none => "all"

/-- The tool names the router's `switch` handles. -/
def knownToolNames : List String :=
  ["launch_browser", "navigate_to", "click_element", "fill_input",
   "wait_for_element", "take_screenshot", "github_search", "inspect_page",
   "get_page_content", "generate_test", "close_browser"]

/-- The inner `switch (name)` dispatch of the call-tool handler (before the
surrounding `try`/`catch`), with the source's argument-default expressions. -/
def dispatchTool (w : World) (name : String) (args : ToolArgs)
    (st : DriverState) : Except String ToolResult × DriverState :=
  if name = "launch_browser" then
    launchBrowser w (args.headless.getD false) st
  else if name = "navigate_to" then navigateTo args.url st
  else if name = "click_element" then
    clickElement args.selector (args.timeout.getD 30000) st
  else if name = "fill_input" then fillInput args.selector args.text st
  else if name = "wait_for_element" then
    waitForElement args.selector (args.timeout.getD 30000) st
  else if name = "take_screenshot" then
    takeScreenshot (args.filename.getD "screenshot.png") st
  else if name = "github_search" then githubSearch args.query st
  else if name = "inspect_page" then
    inspectPage (elementTypeOrAll args.elementType) st
  else if name = "get_page_content" then getPageContent st
  else if name = "generate_test" then
    generateTest args.testName args.description args.actions st
  else if name = "close_browser" then closeBrowser w st
  else (.error ("Unknown tool: " ++ name), st)

/-- `callTool`: the dispatch wrapped in the handler's `try`/`catch`, which
converts every thrown error into an error-result envelope.  Total: the
router never re-throws. -/
def callTool (w : World) (name : String) (args : ToolArgs)
    (st : DriverState) : ToolResult × DriverState :=
  match dispatchTool w name args st with
  | (.ok r, st') => (r, st')
  | (.error e, st') =>
    (textResult ("Error executing " ++ name ++ ": " ++ e), st')

/-! ## Transport bridge (`sendMCPRequest` in `ai-integration.js`)

Real time is modelled by explicit events: a `fire i` event is the 30-second
timer of call `i` expiring, a `recv f` event is a chunk arriving on the child
process's stdout (delivered to every registered `onData` listener).  A
promise settles at most once: later resolve/reject attempts are no-ops. -/

/-- The fixed per-request timeout (`setTimeout(..., 30000)`). -/
def mcpRequestTimeoutMs : Nat := 30000

/-- Settlement status of one `sendMCPRequest` promise. -/
inductive CallOutcome where
  | pending
  | resolved (result : String)
  | rejectedError (msg : String)
  | rejectedTimeout
deriving DecidableEq, Repr

/-- One in-flight bridge call: its correlation id, its timeout window, its
promise's settlement status, whether its `onData` listener is still attached,
and whether its timer is still armed. -/
structure PendingCall where
  id : Nat
  timeoutMs : Nat
  outcome : CallOutcome
  listenerOn : Bool
  timerOn : Bool
deriving DecidableEq, Repr

/-- The orchestrator-side bridge state: `isConnected`, the `messageId`
counter, and the in-flight calls. -/
structure BridgeState where
  connected : Bool
  messageId : Nat
  calls : List PendingCall
deriving DecidableEq, Repr

/-- Bridge state right after `startMCPServer` has observed the readiness
line on the child's stderr (`isConnected = true`, `messageId = 0`). -/
def bridgeAfterStartup : BridgeState :=
  { connected := true, messageId := 0, calls := [] }

/-- A chunk arriving on stdout: either not parseable as JSON (ignored by
every listener), or a response frame `{ id, result | error }`. -/
inductive Frame where
  | malformed
  | response (id : Nat) (payload : Except String String)
deriving Repr

/-- Promise settlement: only a pending promise takes a new outcome. -/
def settle (o new : CallOutcome) : CallOutcome :=
  match o with
  | .pending => new
  | o => o

/-- Effect of one stdout chunk on one call's `onData` listener: a listener
reacts only to a parseable frame carrying exactly its own id, in which case
it clears the timer, detaches itself, and resolves or rejects its promise. -/
def recvCall (f : Frame) (c : PendingCall) : PendingCall :=
  match f with
  | .malformed => c
  | .response i payload =>
    if c.listenerOn ∧ i = c.id then
      { c with
          timerOn := false
          listenerOn := false
          outcome := settle c.outcome
            (match payload with
             | .ok r => .resolved r
             | .error e => .rejectedError e) }
    else c

/-- Effect of timer `i` expiring on one call: rejects the promise with the
timeout error.  The source's timeout callback does not detach the `onData`
listener. -/
def fireCall (i : Nat) (c : PendingCall) : PendingCall :=
  if c.timerOn ∧ i = c.id then
    { c with timerOn := false, outcome := settle c.outcome .rejectedTimeout }
  else c

/-- Bridge-level events. -/
inductive BridgeEvent where
  | send
  | recv (f : Frame)
  | fire (id : Nat)
deriving Repr

/-- How one event transforms one already-registered call. -/
def callStep (e : BridgeEvent) (c : PendingCall) : PendingCall :=
  match e with
  | .send => c
  | .recv f => recvCall f c
  | .fire i => fireCall i c

/-- One bridge step.  `send` is `sendMCPRequest`: it increments `messageId`
and registers a fresh pending call with that id (when not connected the
call throws up front and nothing is registered). -/
def bridgeStep (st : BridgeState) (e : BridgeEvent) : BridgeState :=
  match e with
  | .send =>
    if st.connected then
      { st with
          messageId := st.messageId + 1
          calls := st.calls ++
            [⟨st.messageId + 1, mcpRequestTimeoutMs, .pending, true, true⟩] }
    else st
  | .recv f => { st with calls := st.calls.map (recvCall f) }
  | .fire i => { st with calls := st.calls.map (fireCall i) }

/-- Run a sequence of bridge events. -/
def runBridge (st : BridgeState) (es : List BridgeEvent) : BridgeState :=
  es.foldl bridgeStep st

/-! ## String containment (for diagnostic-content claims) -/

/-- `p` occurs as a contiguous substring of `s`. -/
def containsStr (s p : String) : Prop := ∃ a b : String, s = a ++ p ++ b

/-- Whether an attempt threw (used to state exhaustion of earlier
candidates). -/
def exceptFailed : Except String α → Bool
  | .error _ => true
  | .ok _ => false

/-! ## Witness fixtures: concrete pages, worlds and states -/

/-- A minimal healthy page on a non-special origin. -/
def plainPage : PageModel :=
  { url := "https://example.test/", titleStr := "Example", contentLen := 10,
    gotoResult := fun u => .ok u,
    waitErr := fun _ _ => none,
    waitPlainErr := fun _ _ => none,
    visible := fun _ => true, enabled := fun _ => true,
    clickErr := fun _ => none, clearErr := fun _ => none,
    fillErr := fun _ _ => none, readValue := fun _ => .ok "",
    clickablesDiag := .ok "[]", inputsDiag := .ok "[]",
    screenshotErr := fun _ => none,
    inspectEval := fun _ => .ok ⟨0, 0, 0, "\x7b\x7d"⟩,
    ghStrategy1 := .error "No search input found",
    ghStrategy2Err := some "nope", ghStrategy3Err := some "nope" }

/-- A GitHub page on which only the caller-supplied selector `#mine` is ever
visible, and where a fill of `#mine` reads back `quux`. -/
def onlyMinePage : PageModel :=
  { plainPage with
      url := "https://github.com/search",
      waitErr := fun s _ => if s = "#mine" then none else some "boom",
      readValue := fun _ => .ok "quux" }

/-- A GitHub page on which every selector fails to become visible. -/
def allFailPage : PageModel :=
  { plainPage with
      url := "https://github.com/search",
      waitErr := fun _ _ => some "boom",
      clickablesDiag := .ok "[diagA]", inputsDiag := .ok "[diagB]" }

/-- A well-behaved browser world. -/
def okWorld : World :=
  { launchErr := fun _ => none, newPage := .ok plainPage, closeErr := none }

/-- Driver state before any launch. -/
def noSession : DriverState := ⟨false, none, []⟩

/-- Driver state with a live plain page. -/
def plainSession : DriverState := ⟨true, some plainPage, []⟩

/-- A freshly sent, still-pending bridge call with id 1. -/
def samplePending : PendingCall :=
  ⟨1, mcpRequestTimeoutMs, .pending, true, true⟩

/-! ## String containment kit -/

theorem containsStr_refl (p : String) : containsStr p p :=
  ⟨"", "", by rw [String.empty_append, String.append_empty]⟩

theorem containsStr_appendl {s p : String} (t : String)
    (h : containsStr s p) : containsStr (s ++ t) p := by
  obtain ⟨a, b, rfl⟩ := h
  exact ⟨a, b ++ t, by rw [String.append_assoc (a ++ p) b t]⟩

theorem containsStr_appendr {t p : String} (s : String)
    (h : containsStr t p) : containsStr (s ++ t) p := by
  obtain ⟨a, b, rfl⟩ := h
  exact ⟨s ++ a, b, by simp [String.append_assoc]⟩

theorem containsStr_trans {s p q : String} (h1 : containsStr s p)
    (h2 : containsStr p q) : containsStr s q := by
  obtain ⟨a, b, rfl⟩ := h1
  obtain ⟨x, y, rfl⟩ := h2
  exact ⟨a ++ x, y ++ b, by simp [String.append_assoc]⟩

theorem containsStr_joinSelectors {c : String} :
    ∀ {l : List String}, c ∈ l → containsStr (joinSelectors l) c := by
  intro l
  induction l with
  | nil => intro h; cases h
  | cons s rest ih =>
    intro h
    cases rest with
    | nil =>
      rcases List.mem_singleton.mp h with rfl
      exact containsStr_refl c
    | cons s2 rest2 =>
      rcases List.mem_cons.mp h with rfl | hmem
      · show containsStr (c ++ ", " ++ joinSelectors (s2 :: rest2)) c
        exact containsStr_appendl _ (containsStr_appendl _ (containsStr_refl c))
      · show containsStr (s ++ ", " ++ joinSelectors (s2 :: rest2)) c
        exact containsStr_appendr _ (ih hmem)

/-! ## Candidate-loop lemmas -/

theorem tryCandidates_first_success (attempt : String → Except String α) :
    ∀ (l1 : List String) (c : String) (l2 : List String) (last : Option String)
      (v : α),
      (∀ a ∈ l1, exceptFailed (attempt a) = true) → attempt c = .ok v →
      tryCandidates attempt (l1 ++ c :: l2) last = .ok (c, v) := by
  intro l1
  induction l1 with
  | nil =>
    intro c l2 last v _ hc
    simp [tryCandidates, hc]
  | cons a as ih =>
    intro c l2 last v hfail hc
    have ha : exceptFailed (attempt a) = true := hfail a (List.mem_cons_self a as)
    have has : ∀ x ∈ as, exceptFailed (attempt x) = true :=
      fun x hx => hfail x (List.mem_cons_of_mem a hx)
    cases he : attempt a with
    | ok v' => rw [he] at ha; simp [exceptFailed] at ha
    | error e =>
      show tryCandidates attempt (a :: (as ++ c :: l2)) last = .ok (c, v)
      simp only [tryCandidates, he]
      exact ih c l2 (some e) v has hc

theorem tryFillCandidate_readValue {pg : PageModel} {t c v : String}
    (h : tryFillCandidate pg t c = .ok v) : pg.readValue c = .ok v := by
  unfold tryFillCandidate at h
  cases hw : pg.waitErr c 5000 <;> rw [hw] at h
  · by_cases hv : pg.visible c
    · simp only [hv, not_true, if_neg, Bool.not_eq_true] at h
      cases hcl : pg.clearErr c <;> rw [hcl] at h
      · cases hf : pg.fillErr c t <;> rw [hf] at h
        · exact h
        · cases h
      · cases h
    · simp only [hv, if_pos, Bool.not_eq_true] at h
      cases h
  · cases h

/-! ## Per-operation bookkeeping lemmas -/

theorem callTool_state (w : World) (n : String) (a : ToolArgs)
    (st : DriverState) : (callTool w n a st).2 = (dispatchTool w n a st).2 := by
  unfold callTool
  rcases h : dispatchTool w n a st with ⟨e | r, s⟩ <;> simp [h]

theorem navigateTo_extends (u : String) (st : DriverState) :
    ∃ t, (navigateTo u st).2.actions = st.actions ++ t := by
  unfold navigateTo
  split
  · exact ⟨[], by simp⟩
  · split
    · exact ⟨[], by simp⟩
    · exact ⟨_, rfl⟩

theorem clickElement_extends (sel : String) (timeout : Nat)
    (st : DriverState) :
    ∃ t, (clickElement sel timeout st).2.actions = st.actions ++ t := by
  cases hp : st.page with
  | none => exact ⟨[], by simp [clickElement, hp]⟩
  | some pg =>
    cases hr : tryCandidates (tryClickCandidate pg timeout)
        (clickSelectorsToTry pg.url sel) none with
    | ok cv =>
      exact ⟨[clickActionRecord cv.1], by simp [clickElement, hp, hr]⟩
    | error le => exact ⟨[], by simp [clickElement, hp, hr]⟩

theorem fillInput_extends (sel text : String) (st : DriverState) :
    ∃ t, (fillInput sel text st).2.actions = st.actions ++ t := by
  cases hp : st.page with
  | none => exact ⟨[], by simp [fillInput, hp]⟩
  | some pg =>
    cases hr : tryCandidates (tryFillCandidate pg text)
        (fillSelectorsToTry pg.url sel) none with
    | ok cv =>
      exact ⟨[fillActionRecord cv.1 text cv.2], by simp [fillInput, hp, hr]⟩
    | error le => exact ⟨[], by simp [fillInput, hp, hr]⟩

theorem waitForElement_extends (sel : String) (timeout : Nat)
    (st : DriverState) :
    ∃ t, (waitForElement sel timeout st).2.actions = st.actions ++ t := by
  unfold waitForElement
  split
  · exact ⟨[], by simp⟩
  · split
    · exact ⟨[], by simp⟩
    · exact ⟨_, rfl⟩

theorem takeScreenshot_extends (f : String) (st : DriverState) :
    ∃ t, (takeScreenshot f st).2.actions = st.actions ++ t := by
  unfold takeScreenshot
  split
  · exact ⟨[], by simp⟩
  · split
    · exact ⟨[], by simp⟩
    · exact ⟨_, rfl⟩

theorem githubSearch_extends (q : String) (st : DriverState) :
    ∃ t, (githubSearch q st).2.actions = st.actions ++ t := by
  cases hp : st.page with
  | none => exact ⟨[], by simp [githubSearch, hp]⟩
  | some pg =>
    cases h1 : pg.ghStrategy1 with
    | ok s =>
      exact ⟨[{ type := "github_search", query := some q, strategy := some s,
                code := "// GitHub search for: " ++ q ++
                  " using strategy: " ++ s }],
        by simp [githubSearch, hp, h1]⟩
    | error e1 =>
      cases h2 : pg.ghStrategy2Err with
      | none =>
        exact ⟨[{ type := "github_search", query := some q,
                  strategy := some "keyboard-shortcut",
                  code := "// GitHub search for: " ++ q ++
                    " using strategy: " ++ "keyboard-shortcut" }],
          by simp [githubSearch, hp, h1, h2]⟩
      | some e2 =>
        cases h3 : pg.ghStrategy3Err with
        | none =>
          exact ⟨[{ type := "github_search", query := some q,
                    strategy := some "direct-url",
                    code := "// GitHub search for: " ++ q ++
                      " using strategy: " ++ "direct-url" }],
            by simp [githubSearch, hp, h1, h2, h3]⟩
        | some e3 => exact ⟨[], by simp [githubSearch, hp, h1, h2, h3]⟩

theorem inspectPage_state (et : String) (st : DriverState) :
    (inspectPage et st).2 = st := by
  unfold inspectPage
  split
  · rfl
  · split <;> rfl

theorem getPageContent_state (st : DriverState) :
    (getPageContent st).2 = st := by
  unfold getPageContent
  split <;> rfl

theorem generateTest_state (n : String) (d : Option String)
    (p : Option (List JAction)) (st : DriverState) :
    (generateTest n d p st).2 = st := rfl

theorem launchBrowser_actions (w : World) (h : Bool) (st : DriverState) :
    (launchBrowser w h st).2.actions = st.actions ∨
    (launchBrowser w h st).2.actions = [] := by
  unfold launchBrowser
  split
  · exact .inl rfl
  · split
    · exact .inl rfl
    · split
      · exact .inl rfl
      · exact .inr rfl

theorem closeBrowser_actions (w : World) (st : DriverState) :
    (closeBrowser w st).2.actions = st.actions ∨
    (closeBrowser w st).2.actions = [] := by
  unfold closeBrowser
  split
  · split
    · exact .inl rfl
    · exact .inr rfl
  · exact .inl rfl

theorem launchBrowser_error (w : World) (hl : Bool) (st : DriverState)
    (e : String) (h : (launchBrowser w hl st).1 = .error e) :
    (launchBrowser w hl st).2.actions = st.actions := by
  cases hb : st.browser with
  | true => simp [launchBrowser, hb] at h
  | false =>
    cases hle : w.launchErr hl with
    | some e2 => simp [launchBrowser, hb, hle]
    | none =>
      cases hn : w.newPage with
      | ok pg => simp [launchBrowser, hb, hle, hn] at h
      | error e2 => simp [launchBrowser, hb, hle, hn]

theorem navigateTo_error (u : String) (st : DriverState) (e : String)
    (h : (navigateTo u st).1 = .error e) :
    (navigateTo u st).2.actions = st.actions := by
  rcases navigateTo_extends u st with ⟨t, ht⟩
  unfold navigateTo at h ht ⊢
  split at h
  · simp_all
  · split at h
    · simp_all
    · cases h

theorem clickElement_error (sel : String) (timeout : Nat) (st : DriverState)
    (e : String) (h : (clickElement sel timeout st).1 = .error e) :
    (clickElement sel timeout st).2.actions = st.actions := by
  cases hp : st.page with
  | none => simp [clickElement, hp]
  | some pg =>
    cases hr : tryCandidates (tryClickCandidate pg timeout)
        (clickSelectorsToTry pg.url sel) none with
    | ok cv => simp [clickElement, hp, hr] at h
    | error le => simp [clickElement, hp, hr]

theorem fillInput_error (sel text : String) (st : DriverState) (e : String)
    (h : (fillInput sel text st).1 = .error e) :
    (fillInput sel text st).2.actions = st.actions := by
  cases hp : st.page with
  | none => simp [fillInput, hp]
  | some pg =>
    cases hr : tryCandidates (tryFillCandidate pg text)
        (fillSelectorsToTry pg.url sel) none with
    | ok cv => simp [fillInput, hp, hr] at h
    | error le => simp [fillInput, hp, hr]

theorem waitForElement_error (sel : String) (timeout : Nat)
    (st : DriverState) (e : String)
    (h : (waitForElement sel timeout st).1 = .error e) :
    (waitForElement sel timeout st).2.actions = st.actions := by
  unfold waitForElement at h ⊢
  split at h
  · simp_all
  · split at h
    · simp_all
    · cases h

theorem takeScreenshot_error (f : String) (st : DriverState) (e : String)
    (h : (takeScreenshot f st).1 = .error e) :
    (takeScreenshot f st).2.actions = st.actions := by
  unfold takeScreenshot at h ⊢
  split at h
  · simp_all
  · split at h
    · simp_all
    · cases h

theorem githubSearch_error (q : String) (st : DriverState) (e : String)
    (h : (githubSearch q st).1 = .error e) :
    (githubSearch q st).2.actions = st.actions := by
  cases hp : st.page with
  | none => simp [githubSearch, hp]
  | some pg =>
    cases h1 : pg.ghStrategy1 with
    | ok s => simp [githubSearch, hp, h1] at h
    | error e1 =>
      cases h2 : pg.ghStrategy2Err with
      | none => simp [githubSearch, hp, h1, h2] at h
      | some e2 =>
        cases h3 : pg.ghStrategy3Err with
        | none => simp [githubSearch, hp, h1, h2, h3] at h
        | some e3 => simp [githubSearch, hp, h1, h2, h3]

theorem closeBrowser_error (w : World) (st : DriverState) (e : String)
    (h : (closeBrowser w st).1 = .error e) :
    (closeBrowser w st).2.actions = st.actions := by
  cases hb : st.browser with
  | false => simp [closeBrowser, hb] at h
  | true =>
    cases hc : w.closeErr with
    | some e2 => simp [closeBrowser, hb, hc]
    | none => simp [closeBrowser, hb, hc] at h

theorem dispatch_launch (w : World) (args : ToolArgs) (st : DriverState) :
    dispatchTool w "launch_browser" args st =
      launchBrowser w (args.headless.getD false) st := rfl

theorem dispatch_navigate (w : World) (args : ToolArgs) (st : DriverState) :
    dispatchTool w "navigate_to" args st = navigateTo args.url st := rfl

theorem dispatch_click (w : World) (args : ToolArgs) (st : DriverState) :
    dispatchTool w "click_element" args st =
      clickElement args.selector (args.timeout.getD 30000) st := rfl

theorem dispatch_fill (w : World) (args : ToolArgs) (st : DriverState) :
    dispatchTool w "fill_input" args st =
      fillInput args.selector args.text st := rfl

theorem dispatch_wait (w : World) (args : ToolArgs) (st : DriverState) :
    dispatchTool w "wait_for_element" args st =
      waitForElement args.selector (args.timeout.getD 30000) st := rfl

theorem dispatch_screenshot (w : World) (args : ToolArgs)
    (st : DriverState) :
    dispatchTool w "take_screenshot" args st =
      takeScreenshot (args.filename.getD "screenshot.png") st := rfl

theorem dispatch_github (w : World) (args : ToolArgs) (st : DriverState) :
    dispatchTool w "github_search" args st = githubSearch args.query st := rfl

theorem dispatch_inspect (w : World) (args : ToolArgs) (st : DriverState) :
    dispatchTool w "inspect_page" args st =
      inspectPage (elementTypeOrAll args.elementType) st := rfl

theorem dispatch_content (w : World) (args : ToolArgs) (st : DriverState) :
    dispatchTool w "get_page_content" args st = getPageContent st := rfl

theorem dispatch_generate (w : World) (args : ToolArgs) (st : DriverState) :
    dispatchTool w "generate_test" args st =
      generateTest args.testName args.description args.actions st := rfl

theorem dispatch_close (w : World) (args : ToolArgs) (st : DriverState) :
    dispatchTool w "close_browser" args st = closeBrowser w st := rfl

theorem dispatchTool_unknown (w : World) (name : String) (args : ToolArgs)
    (st : DriverState) (h : name ∉ knownToolNames) :
    dispatchTool w name args st =
      (.error ("Unknown tool: " ++ name), st) := by
  simp only [knownToolNames, List.mem_cons, List.not_mem_nil, or_false,
    not_or] at h
  obtain ⟨h1, h2, h3, h4, h5, h6, h7, h8, h9, h10, h11⟩ := h
  unfold dispatchTool
  rw [if_neg h1, if_neg h2, if_neg h3, if_neg h4, if_neg h5, if_neg h6,
    if_neg h7, if_neg h8, if_neg h9, if_neg h10, if_neg h11]

/-! ## Claim theorems -/

/-- C1: for click and fill, the candidate list is the site-specific
known-good selectors for the current page (URL-substring site detection, in
declared priority order) followed by the caller-supplied selector last;
candidates are attempted strictly in that order, the operation stops at the
first succeeding candidate, and the appended record names that candidate. -/
theorem c1_selector_resolution_order :
    ∀ (pg : PageModel) (sel : String) (timeout : Nat) (st : DriverState),
      st.page = some pg →
      (clickSelectorsToTry pg.url sel = siteClickSelectors pg.url ++ [sel] ∧
       fillSelectorsToTry pg.url sel = siteFillSelectors pg.url ++ [sel]) ∧
      (∀ (l1 : List String) (c : String) (l2 : List String),
        clickSelectorsToTry pg.url sel = l1 ++ c :: l2 →
        (∀ a ∈ l1, exceptFailed (tryClickCandidate pg timeout a) = true) →
        tryClickCandidate pg timeout c = .ok () →
        clickElement sel timeout st =
          (.ok (textResult ("Successfully clicked element: " ++ c)),
           { st with actions := st.actions ++ [clickActionRecord c] })) ∧
      (∀ (text : String) (l1 : List String) (c : String) (l2 : List String)
          (v : String),
        fillSelectorsToTry pg.url sel = l1 ++ c :: l2 →
        (∀ a ∈ l1, exceptFailed (tryFillCandidate pg text a) = true) →
        tryFillCandidate pg text c = .ok v →
        fillInput sel text st =
          (.ok (textResult ("Successfully filled input " ++ c ++ " with: " ++
              text ++ " (actual value: " ++ v ++ ")")),
           { st with actions := st.actions ++ [fillActionRecord c text v] })) := by
  intro pg sel timeout st hp
  refine ⟨⟨?_, ?_⟩, ?_, ?_⟩
  · unfold clickSelectorsToTry siteClickSelectors
    split_ifs <;> simp
  · unfold fillSelectorsToTry siteFillSelectors
    split_ifs <;> simp
  · intro l1 c l2 hc hfail hok
    have hloop :=
      tryCandidates_first_success (tryClickCandidate pg timeout) l1 c l2 none
        () hfail hok
    rw [← hc] at hloop
    simp [clickElement, hp, hloop]
  · intro text l1 c l2 v hc hfail hok
    have hloop :=
      tryCandidates_first_success (tryFillCandidate pg text) l1 c l2 none
        v hfail hok
    rw [← hc] at hloop
    simp [fillInput, hp, hloop]

/-- Witness for C1: on a GitHub page where all seven site-specific click
selectors fail and only the caller's `#mine` works, the click succeeds and
its record names `#mine`. -/
theorem c1_witness :
    clickElement "#mine" 30000 ⟨true, some onlyMinePage, []⟩ =
      (.ok (textResult ("Successfully clicked element: " ++ "#mine")),
       { (⟨true, some onlyMinePage, []⟩ : DriverState) with
           actions := [] ++ [clickActionRecord "#mine"] }) :=
  (c1_selector_resolution_order onlyMinePage "#mine" 30000
      ⟨true, some onlyMinePage, []⟩ rfl).2.1
    githubClickSelectors "#mine" [] rfl (by decide) rfl

/-- C8: a successful fill re-reads the field (`inputValue`) and the appended
record's `actualValue` is exactly the value read back. -/
theorem c8_fill_records_confirmed_value :
    ∀ (pg : PageModel) (sel text : String) (st : DriverState)
      (l1 : List String) (c : String) (l2 : List String) (v : String),
      st.page = some pg →
      fillSelectorsToTry pg.url sel = l1 ++ c :: l2 →
      (∀ a ∈ l1, exceptFailed (tryFillCandidate pg text a) = true) →
      tryFillCandidate pg text c = .ok v →
      pg.readValue c = .ok v ∧
      (fillActionRecord c text v).actualValue = some v ∧
      fillInput sel text st =
        (.ok (textResult ("Successfully filled input " ++ c ++ " with: " ++
            text ++ " (actual value: " ++ v ++ ")")),
         { st with actions := st.actions ++ [fillActionRecord c text v] }) := by
  intro pg sel text st l1 c l2 v hp hc hfail hok
  refine ⟨tryFillCandidate_readValue hok, rfl, ?_⟩
  have hloop :=
    tryCandidates_first_success (tryFillCandidate pg text) l1 c l2 none
      v hfail hok
  rw [← hc] at hloop
  simp [fillInput, hp, hloop]

/-- Witness for C8: filling `quux` into `#mine` on the fixture page records
confirmed value `quux`. -/
theorem c8_witness :
    onlyMinePage.readValue "#mine" = .ok "quux" ∧
    (fillActionRecord "#mine" "quux" "quux").actualValue = some "quux" ∧
    fillInput "#mine" "quux" ⟨true, some onlyMinePage, []⟩ =
      (.ok (textResult ("Successfully filled input " ++ "#mine" ++
          " with: " ++ "quux" ++ " (actual value: " ++ "quux" ++ ")")),
       { (⟨true, some onlyMinePage, []⟩ : DriverState) with
           actions := [] ++ [fillActionRecord "#mine" "quux" "quux"] }) :=
  c8_fill_records_confirmed_value onlyMinePage "#mine" "quux"
    ⟨true, some onlyMinePage, []⟩ githubFillSelectors "#mine" [] "quux"
    rfl rfl (by decide) rfl

/-- C7: when every candidate fails, click and fill raise a single error whose
message contains the last underlying error message and, when the diagnostic
page query succeeds, every tried selector together with the collected element
descriptions; when the diagnostic query itself fails, the error instead
contains both the last error message and the diagnostic failure message. -/
theorem c7_exhaustion_diagnostics :
    ∀ (pg : PageModel) (sel : String) (timeout : Nat) (text : String)
      (st : DriverState) (lastMsg : String),
      st.page = some pg →
      (tryCandidates (tryClickCandidate pg timeout)
          (clickSelectorsToTry pg.url sel) none = .error (some lastMsg) →
        ∃ m, (clickElement sel timeout st).1 = .error m ∧
          containsStr m lastMsg ∧
          (∀ d, pg.clickablesDiag = .ok d → containsStr m d ∧
            ∀ c ∈ clickSelectorsToTry pg.url sel, containsStr m c) ∧
          (∀ e, pg.clickablesDiag = .error e → containsStr m e)) ∧
      (tryCandidates (tryFillCandidate pg text)
          (fillSelectorsToTry pg.url sel) none = .error (some lastMsg) →
        ∃ m, (fillInput sel text st).1 = .error m ∧
          containsStr m lastMsg ∧
          (∀ d, pg.inputsDiag = .ok d → containsStr m d ∧
            ∀ c ∈ fillSelectorsToTry pg.url sel, containsStr m c) ∧
          (∀ e, pg.inputsDiag = .error e → containsStr m e)) := by
  intro pg sel timeout text st lastMsg hp
  constructor
  · intro hloop
    cases hd : pg.clickablesDiag with
    | ok d =>
      refine ⟨"Failed to click element " ++ sel ++ ": " ++ lastMsg ++
          ". Could not inspect available elements: " ++
          ("Failed to click element with any selector: " ++
            joinSelectors (clickSelectorsToTry pg.url sel) ++
            ". Last error: " ++ lastMsg ++
            ". Available clickable elements: " ++ d),
        by simp [clickElement, hp, hloop, hd], ?_, ?_, ?_⟩
      · exact containsStr_appendl _ (containsStr_appendl _
          (containsStr_appendr _ (containsStr_refl _)))
      · intro d' hd'
        cases hd'
        have hJ : containsStr
            ("Failed to click element with any selector: " ++
              joinSelectors (clickSelectorsToTry pg.url sel) ++
              ". Last error: " ++ lastMsg ++
              ". Available clickable elements: " ++ d)
            (joinSelectors (clickSelectorsToTry pg.url sel)) :=
          containsStr_appendl _ (containsStr_appendl _ (containsStr_appendl _
            (containsStr_appendl _ (containsStr_appendr _
              (containsStr_refl _)))))
        constructor
        · exact containsStr_appendr _ (containsStr_appendr _
            (containsStr_refl _))
        · intro c hc
          exact containsStr_trans (containsStr_appendr _ hJ)
            (containsStr_joinSelectors hc)
      · intro e he
        cases he
    | error e =>
      refine ⟨"Failed to click element " ++ sel ++ ": " ++ lastMsg ++
          ". Could not inspect available elements: " ++ e,
        by simp [clickElement, hp, hloop, hd], ?_, ?_, ?_⟩
      · exact containsStr_appendl _ (containsStr_appendl _
          (containsStr_appendr _ (containsStr_refl _)))
      · intro d hd'
        cases hd'
      · intro e' he
        cases he
        exact containsStr_appendr _ (containsStr_refl _)
  · intro hloop
    cases hd : pg.inputsDiag with
    | ok d =>
      refine ⟨"Failed to fill input " ++ sel ++ ": " ++ lastMsg ++
          ". Could not inspect available inputs: " ++
          ("Failed to fill input with any selector: " ++
            joinSelectors (fillSelectorsToTry pg.url sel) ++
            ". Last error: " ++ lastMsg ++
            ". Available inputs: " ++ d),
        by simp [fillInput, hp, hloop, hd], ?_, ?_, ?_⟩
      · exact containsStr_appendl _ (containsStr_appendl _
          (containsStr_appendr _ (containsStr_refl _)))
      · intro d' hd'
        cases hd'
        have hJ : containsStr
            ("Failed to fill input with any selector: " ++
              joinSelectors (fillSelectorsToTry pg.url sel) ++
              ". Last error: " ++ lastMsg ++
              ". Available inputs: " ++ d)
            (joinSelectors (fillSelectorsToTry pg.url sel)) :=
          containsStr_appendl _ (containsStr_appendl _ (containsStr_appendl _
            (containsStr_appendl _ (containsStr_appendr _
              (containsStr_refl _)))))
        constructor
        · exact containsStr_appendr _ (containsStr_appendr _
            (containsStr_refl _))
        · intro c hc
          exact containsStr_trans (containsStr_appendr _ hJ)
            (containsStr_joinSelectors hc)
      · intro e he
        cases he
    | error e =>
      refine ⟨"Failed to fill input " ++ sel ++ ": " ++ lastMsg ++
          ". Could not inspect available inputs: " ++ e,
        by simp [fillInput, hp, hloop, hd], ?_, ?_, ?_⟩
      · exact containsStr_appendl _ (containsStr_appendl _
          (containsStr_appendr _ (containsStr_refl _)))
      · intro d hd'
        cases hd'
      · intro e' he
        cases he
        exact containsStr_appendr _ (containsStr_refl _)

/-- C2 (counterexample): the error envelope's single content item has type
`"text"`, not `"text703"` as the claim states — shown on the unknown tool
name `frobnicate`. -/
theorem c2_counterexample :
    (callTool okWorld "frobnicate" {} noSession).1 =
      textResult ("Error executing frobnicate: Unknown tool: frobnicate") ∧
    (callTool okWorld "frobnicate" {} noSession).1.content.map
      ContentItem.type = ["text"] ∧
    "text" ≠ "text703" := by
  refine ⟨rfl, rfl, by decide⟩

/-- C2 (amended): whenever the dispatched handler throws — which it always
does for an unknown tool name — `callTool` returns (never throws) an
error-result envelope whose single content item has type `"text"` and text
`Error executing <tool>: <message>`. -/
theorem c2_error_envelope :
    ∀ (w : World) (name : String) (args : ToolArgs) (st : DriverState),
      (∀ e, (dispatchTool w name args st).1 = .error e →
        callTool w name args st =
          (textResult ("Error executing " ++ name ++ ": " ++ e),
           (dispatchTool w name args st).2)) ∧
      (name ∉ knownToolNames →
        (dispatchTool w name args st).1 =
          .error ("Unknown tool: " ++ name)) := by
  intro w name args st
  constructor
  · intro e h
    rcases hd : dispatchTool w name args st with ⟨e2 | r, s⟩
    · rw [hd] at h
      simp only at h
      cases h
      unfold callTool
      rw [hd]
    · rw [hd] at h
      simp at h
  · intro hmem
    rw [dispatchTool_unknown w name args st hmem]

/-- Witness for C2: the amended rule applied at the unknown tool name
`frobnicate` with no session. -/
theorem c2_witness :
    callTool okWorld "frobnicate" {} noSession =
      (textResult ("Error executing " ++ "frobnicate" ++ ": " ++
        "Unknown tool: frobnicate"),
       (dispatchTool okWorld "frobnicate" {} noSession).2) :=
  (c2_error_envelope okWorld "frobnicate" {} noSession).1
    "Unknown tool: frobnicate" rfl

/-- The eight tools whose handlers begin with the `this.page` check. -/
def sessionRequiringTools : List String :=
  ["navigate_to", "click_element", "fill_input", "wait_for_element",
   "take_screenshot", "github_search", "inspect_page", "get_page_content"]

/-- C3 (counterexample): not every catalog tool yields the precondition
error without a session — `close_browser` without a session returns the
ordinary "No browser to close" report, not an error envelope. -/
theorem c3_counterexample :
    callTool okWorld "close_browser" {} noSession =
      (textResult "No browser to close", noSession) ∧
    textResult "No browser to close" ≠
      textResult ("Error executing " ++ "close_browser" ++ ": " ++
        browserNotLaunchedMsg) := by
  refine ⟨rfl, by decide⟩

/-- C3 (amended): every session-requiring operation (all catalog tools
except `launch_browser`, `generate_test` and `close_browser`) invoked with
no active page yields the `Browser not launched` precondition error
converted to an error envelope, leaving the state unchanged — and never a
thrown fault, since `callTool` is total. -/
theorem c3_precondition_errors :
    ∀ (w : World) (args : ToolArgs) (st : DriverState) (name : String),
      st.page = none → name ∈ sessionRequiringTools →
      callTool w name args st =
        (textResult ("Error executing " ++ name ++ ": " ++
          browserNotLaunchedMsg), st) := by
  intro w args st name hp hmem
  simp only [sessionRequiringTools, List.mem_cons, List.not_mem_nil,
    or_false] at hmem
  rcases hmem with rfl | rfl | rfl | rfl | rfl | rfl | rfl | rfl
  · unfold callTool
    rw [dispatch_navigate]
    simp [navigateTo, hp]
  · unfold callTool
    rw [dispatch_click]
    simp [clickElement, hp]
  · unfold callTool
    rw [dispatch_fill]
    simp [fillInput, hp]
  · unfold callTool
    rw [dispatch_wait]
    simp [waitForElement, hp]
  · unfold callTool
    rw [dispatch_screenshot]
    simp [takeScreenshot, hp]
  · unfold callTool
    rw [dispatch_github]
    simp [githubSearch, hp]
  · unfold callTool
    rw [dispatch_inspect]
    simp [inspectPage, hp]
  · unfold callTool
    rw [dispatch_content]
    simp [getPageContent, hp]

/-- Witness for C3: `navigate_to` with no session. -/
theorem c3_witness :
    callTool okWorld "navigate_to" { url := "https://x.test" } noSession =
      (textResult ("Error executing " ++ "navigate_to" ++ ": " ++
        browserNotLaunchedMsg), noSession) :=
  c3_precondition_errors okWorld { url := "https://x.test" } noSession
    "navigate_to" rfl (by decide)

/-- C6: the action log is append-only for every tool except launch and
close; launch and close either leave it unchanged or clear it; launch on an
already-running browser is a complete no-op on the state (idempotent
relaunch); a successful launch from scratch and a successful close reset
the log to empty. -/
theorem c6_log_lifecycle :
    ∀ (w : World) (name : String) (args : ToolArgs) (st : DriverState),
      (name ≠ "launch_browser" → name ≠ "close_browser" →
        st.actions <+: (callTool w name args st).2.actions) ∧
      ((callTool w "launch_browser" args st).2.actions = st.actions ∨
       (callTool w "launch_browser" args st).2.actions = []) ∧
      ((callTool w "close_browser" args st).2.actions = st.actions ∨
       (callTool w "close_browser" args st).2.actions = []) ∧
      (st.browser = true →
        callTool w "launch_browser" args st =
          (textResult ("Browser already running in " ++
            (if args.headless.getD false then "headless" else "headed") ++
            " mode"), st)) ∧
      (st.browser = false → ∀ pg,
        w.launchErr (args.headless.getD false) = none →
        w.newPage = .ok pg →
        (callTool w "launch_browser" args st).2.actions = []) ∧
      (st.browser = true → w.closeErr = none →
        (callTool w "close_browser" args st).2.actions = []) := by
  intro w name args st
  refine ⟨?_, ?_, ?_, ?_, ?_, ?_⟩
  · intro h1 h2
    rw [callTool_state]
    by_cases hmem : name ∈ knownToolNames
    · simp only [knownToolNames, List.mem_cons, List.not_mem_nil, or_false]
        at hmem
      rcases hmem with rfl | rfl | rfl | rfl | rfl | rfl | rfl | rfl | rfl |
        rfl | rfl
      · exact absurd rfl h1
      · rw [dispatch_navigate]
        rcases navigateTo_extends args.url st with ⟨t, ht⟩
        exact ⟨t, ht.symm⟩
      · rw [dispatch_click]
        rcases clickElement_extends args.selector (args.timeout.getD 30000)
          st with ⟨t, ht⟩
        exact ⟨t, ht.symm⟩
      · rw [dispatch_fill]
        rcases fillInput_extends args.selector args.text st with ⟨t, ht⟩
        exact ⟨t, ht.symm⟩
      · rw [dispatch_wait]
        rcases waitForElement_extends args.selector (args.timeout.getD 30000)
          st with ⟨t, ht⟩
        exact ⟨t, ht.symm⟩
      · rw [dispatch_screenshot]
        rcases takeScreenshot_extends (args.filename.getD "screenshot.png")
          st with ⟨t, ht⟩
        exact ⟨t, ht.symm⟩
      · rw [dispatch_github]
        rcases githubSearch_extends args.query st with ⟨t, ht⟩
        exact ⟨t, ht.symm⟩
      · rw [dispatch_inspect, inspectPage_state]
      · rw [dispatch_content, getPageContent_state]
      · rw [dispatch_generate, generateTest_state]
      · exact absurd rfl h2
    · rw [dispatchTool_unknown w name args st hmem]
  · rw [callTool_state, dispatch_launch]
    exact launchBrowser_actions w (args.headless.getD false) st
  · rw [callTool_state, dispatch_close]
    exact closeBrowser_actions w st
  · intro hb
    unfold callTool
    rw [dispatch_launch]
    simp [launchBrowser, hb]
  · intro hb pg hle hn
    rw [callTool_state, dispatch_launch]
    simp [launchBrowser, hb, hle, hn]
  · intro hb hc
    rw [callTool_state, dispatch_close]
    simp [closeBrowser, hb, hc]

/-- Witness for C6: a navigate extends the log, and relaunch on a running
browser is a no-op. -/
theorem c6_witness :
    (⟨true, some plainPage, []⟩ : DriverState).actions <+:
      (callTool okWorld "navigate_to" { url := "https://x.test" }
        ⟨true, some plainPage, []⟩).2.actions ∧
    callTool okWorld "launch_browser" {} ⟨true, some plainPage, []⟩ =
      (textResult ("Browser already running in " ++
        (if (({} : ToolArgs).headless.getD false) then "headless"
         else "headed") ++ " mode"),
       ⟨true, some plainPage, []⟩) :=
  ⟨(c6_log_lifecycle okWorld "navigate_to" { url := "https://x.test" }
      ⟨true, some plainPage, []⟩).1 (by decide) (by decide),
   (c6_log_lifecycle okWorld "launch_browser" {}
      ⟨true, some plainPage, []⟩).2.2.2.1 rfl⟩

/-- C10: whenever a driver operation throws (any dispatch error: missing
session, selector exhaustion, or a browser failure), the action log is left
exactly as it was — records are appended only after the underlying action
has succeeded. -/
theorem c10_error_atomicity :
    ∀ (w : World) (name : String) (args : ToolArgs) (st : DriverState)
      (e : String),
      (dispatchTool w name args st).1 = .error e →
      (dispatchTool w name args st).2.actions = st.actions := by
  intro w name args st e h
  by_cases hmem : name ∈ knownToolNames
  · simp only [knownToolNames, List.mem_cons, List.not_mem_nil, or_false]
      at hmem
    rcases hmem with rfl | rfl | rfl | rfl | rfl | rfl | rfl | rfl | rfl |
      rfl | rfl
    · rw [dispatch_launch] at h ⊢
      exact launchBrowser_error w (args.headless.getD false) st e h
    · rw [dispatch_navigate] at h ⊢
      exact navigateTo_error args.url st e h
    · rw [dispatch_click] at h ⊢
      exact clickElement_error args.selector (args.timeout.getD 30000) st e h
    · rw [dispatch_fill] at h ⊢
      exact fillInput_error args.selector args.text st e h
    · rw [dispatch_wait] at h ⊢
      exact waitForElement_error args.selector (args.timeout.getD 30000)
        st e h
    · rw [dispatch_screenshot] at h ⊢
      exact takeScreenshot_error (args.filename.getD "screenshot.png") st e h
    · rw [dispatch_github] at h ⊢
      exact githubSearch_error args.query st e h
    · rw [dispatch_inspect, inspectPage_state]
    · rw [dispatch_content, getPageContent_state]
    · rw [dispatch_generate, generateTest_state]
    · rw [dispatch_close] at h ⊢
      exact closeBrowser_error w st e h
  · rw [dispatchTool_unknown w name args st hmem]

/-- Witness for C10: the failing `navigate_to` with no session leaves the
log unchanged. -/
theorem c10_witness :
    (dispatchTool okWorld "navigate_to" { url := "https://x.test" }
      noSession).2.actions = noSession.actions :=
  c10_error_atomicity okWorld "navigate_to" { url := "https://x.test" }
    noSession browserNotLaunchedMsg rfl

/-- Witness for C7: on a page where every selector fails with `boom`, the
click error exists and contains the diagnostics. -/
theorem c7_witness :
    ∃ m, (clickElement "#x" 30000 ⟨true, some allFailPage, []⟩).1 =
        .error m ∧
      containsStr m "boom" ∧
      (∀ d, allFailPage.clickablesDiag = .ok d → containsStr m d ∧
        ∀ c ∈ clickSelectorsToTry allFailPage.url "#x", containsStr m c) ∧
      (∀ e, allFailPage.clickablesDiag = .error e → containsStr m e) :=
  (c7_exhaustion_diagnostics allFailPage "#x" 30000 ""
      ⟨true, some allFailPage, []⟩ "boom" rfl).1 rfl

/-! ## Bridge lemmas -/

theorem settle_of_settled {o : CallOutcome} (h : o ≠ .pending)
    (x : CallOutcome) : settle o x = o := by
  cases o with
  | pending => exact absurd rfl h
  | resolved r => rfl
  | rejectedError m => rfl
  | rejectedTimeout => rfl

theorem callStep_settled (e : BridgeEvent) (c : PendingCall)
    (h : c.outcome ≠ .pending) : (callStep e c).outcome = c.outcome := by
  cases e with
  | send => rfl
  | recv f =>
    show (recvCall f c).outcome = c.outcome
    cases f with
    | malformed => rfl
    | response i payload =>
      simp only [recvCall]
      split
      · simp [settle_of_settled h]
      · rfl
  | fire i =>
    show (fireCall i c).outcome = c.outcome
    simp only [fireCall]
    split
    · simp [settle_of_settled h]
    · rfl

theorem foldl_callStep_settled :
    ∀ (es : List BridgeEvent) (c : PendingCall), c.outcome ≠ .pending →
      (es.foldl (fun a e => callStep e a) c).outcome = c.outcome := by
  intro es
  induction es with
  | nil => intro c _; rfl
  | cons e es ih =>
    intro c h
    have h1 := callStep_settled e c h
    have h2 : (callStep e c).outcome ≠ .pending := by
      rw [h1]; exact h
    rw [List.foldl_cons, ih (callStep e c) h2, h1]

theorem runBridge_sends :
    ∀ (n : Nat) (st : BridgeState), st.connected = true →
      runBridge st (List.replicate n .send) =
        ⟨true, st.messageId + n,
         st.calls ++ (List.range' (st.messageId + 1) n).map
           (fun i => ⟨i, mcpRequestTimeoutMs, .pending, true, true⟩)⟩ := by
  intro n
  induction n with
  | zero =>
    intro st h
    cases st with
    | mk con mid cls => simp_all [runBridge]
  | succ n ih =>
    intro st h
    rw [List.replicate_succ]
    have hstep : bridgeStep st .send =
        ⟨st.connected, st.messageId + 1,
         st.calls ++ [⟨st.messageId + 1, mcpRequestTimeoutMs, .pending,
           true, true⟩]⟩ := by
      cases st with
      | mk con mid cls => simp_all [bridgeStep]
    have : runBridge st (.send :: List.replicate n .send) =
        runBridge (bridgeStep st .send) (List.replicate n .send) := by
      unfold runBridge
      rw [List.foldl_cons]
    rw [this, hstep, ih _ (by simp [h])]
    simp [List.range'_succ, Nat.add_assoc, Nat.add_comm, Nat.add_left_comm]

/-! ## Bridge claim theorems -/

/-- C4 (counterexample): after a send and its timeout firing with no
response ever arriving, the call is rejected but its stdout listener is
still attached — the timeout path does not remove the listener, contrary to
the claim. -/
theorem c4_counterexample :
    runBridge bridgeAfterStartup [.send, .fire 1] =
      ⟨true, 1, [⟨1, 30000, .rejectedTimeout, true, false⟩]⟩ ∧
    ((runBridge bridgeAfterStartup [.send, .fire 1]).calls.map
      PendingCall.listenerOn) = [true] := ⟨rfl, rfl⟩

/-- C4 (amended): when the 30-second timer of a pending call fires, the call
rejects with the timeout error exactly once — its outcome stays
`rejectedTimeout` under every later event — but the listener is *not*
removed at timeout; it remains attached, and a response for that id
arriving later is discarded (the outcome is unchanged) and only then
detaches the listener and disarms the timer. -/
theorem c4_timeout_is_final :
    ∀ (c : PendingCall),
      c.outcome = .pending → c.listenerOn = true → c.timerOn = true →
      fireCall c.id c =
        { c with timerOn := false, outcome := .rejectedTimeout } ∧
      (fireCall c.id c).listenerOn = true ∧
      (∀ payload, recvCall (.response c.id payload) (fireCall c.id c) =
        { c with timerOn := false, listenerOn := false,
                 outcome := .rejectedTimeout }) ∧
      (∀ es : List BridgeEvent,
        (es.foldl (fun a e => callStep e a) (fireCall c.id c)).outcome =
          .rejectedTimeout) := by
  intro c hp hl ht
  have hfire : fireCall c.id c =
      { c with timerOn := false, outcome := .rejectedTimeout } := by
    unfold fireCall
    rw [if_pos ⟨ht, rfl⟩, hp]
    rfl
  refine ⟨hfire, ?_, ?_, ?_⟩
  · rw [hfire]
    exact hl
  · intro payload
    rw [hfire]
    simp [recvCall, hl, settle]
  · intro es
    have hout : (fireCall c.id c).outcome = .rejectedTimeout := by
      rw [hfire]
    have hne : (fireCall c.id c).outcome ≠ .pending := by
      rw [hout]
      intro hx
      cases hx
    rw [foldl_callStep_settled es _ hne, hout]

/-- Witness for C4: the late response for the timed-out call 1 is discarded
(outcome stays `rejectedTimeout`) and removes the listener. -/
theorem c4_witness :
    recvCall (.response 1 (.ok "late")) (fireCall 1 samplePending) =
      { samplePending with timerOn := false, listenerOn := false,
                           outcome := .rejectedTimeout } :=
  (c4_timeout_is_final samplePending rfl rfl rfl).2.2.1 (.ok "late")

/-- C5: `sendMCPRequest` assigns monotonically increasing ids starting at 1
(after n sends the registered ids are exactly 1..n), and each response frame
settles exactly the call carrying its id: responses arriving in order
2-then-1 resolve each call with its own result. -/
theorem c5_monotonic_ids_and_correlation :
    (∀ n : Nat,
      (runBridge bridgeAfterStartup (List.replicate n .send)).calls.map
        PendingCall.id = List.range' 1 n) ∧
    (∀ A B : String,
      runBridge bridgeAfterStartup
        [.send, .send, .recv (.response 2 (.ok B)),
         .recv (.response 1 (.ok A))] =
      ⟨true, 2,
       [⟨1, mcpRequestTimeoutMs, .resolved A, false, false⟩,
        ⟨2, mcpRequestTimeoutMs, .resolved B, false, false⟩]⟩) := by
  constructor
  · intro n
    rw [runBridge_sends n bridgeAfterStartup rfl]
    simp [bridgeAfterStartup]
    rw [show (PendingCall.id ∘ fun i =>
        (⟨i, mcpRequestTimeoutMs, .pending, true, true⟩ : PendingCall)) =
      id from rfl, List.map_id]
  · intro A B
    rfl

/-! ## Script-generation claim theorem -/

/-- The tool names `convertActionToPlaywrightCode` recognizes. -/
def convertHandledNames : List String :=
  ["launch_browser", "navigate_to", "click_element", "fill_input",
   "wait_for_element", "take_screenshot", "github_search", "inspect_page",
   "get_page_content", "close_browser"]

/-- C9: the per-tool translation: `navigate_to` with `{url: u}` yields a
line navigating to exactly `u`; `launch_browser`, `close_browser`,
`inspect_page` and `get_page_content` yield no source line; any
unrecognized tool name yields the explanatory placeholder comment. -/
theorem c9_translation_table :
    (∀ (args : JArgs) (u : String), args.url = some u →
      convertActionToPlaywrightCode ⟨none, some "navigate_to", some args⟩ =
        some ("await page.goto('" ++ u ++ "');") ∧
      actionLine ⟨none, some "navigate_to", some args⟩ =
        "  " ++ ("await page.goto('" ++ u ++ "');") ++ "\n") ∧
    (∀ args : JArgs,
      convertActionToPlaywrightCode
        ⟨none, some "launch_browser", some args⟩ = none ∧
      convertActionToPlaywrightCode
        ⟨none, some "close_browser", some args⟩ = none ∧
      convertActionToPlaywrightCode
        ⟨none, some "inspect_page", some args⟩ = none ∧
      convertActionToPlaywrightCode
        ⟨none, some "get_page_content", some args⟩ = none ∧
      actionLine ⟨none, some "launch_browser", some args⟩ = "" ∧
      actionLine ⟨none, some "close_browser", some args⟩ = "" ∧
      actionLine ⟨none, some "inspect_page", some args⟩ = "" ∧
      actionLine ⟨none, some "get_page_content", some args⟩ = "") ∧
    (∀ (name : String) (args : JArgs), name ∉ convertHandledNames →
      convertActionToPlaywrightCode ⟨none, some name, some args⟩ =
        some ("// Unsupported action: " ++ name)) := by
  refine ⟨?_, ?_, ?_⟩
  · intro args u hu
    have hconv : convertActionToPlaywrightCode
        ⟨none, some "navigate_to", some args⟩ =
        some ("await page.goto('" ++ u ++ "');") := by
      simp [convertActionToPlaywrightCode, jsStr, hu]
    refine ⟨hconv, ?_⟩
    simp [actionLine, truthyStr, hconv]
  · intro args
    refine ⟨?_, ?_, ?_, ?_, ?_, ?_, ?_, ?_⟩ <;>
      simp [convertActionToPlaywrightCode, actionLine, truthyStr]
  · intro name args hmem
    simp only [convertHandledNames, List.mem_cons, List.not_mem_nil,
      or_false, not_or] at hmem
    obtain ⟨h1, h2, h3, h4, h5, h6, h7, h8, h9, h10⟩ := hmem
    simp [convertActionToPlaywrightCode, jsStr, h1, h2, h3, h4, h5, h6, h7,
      h8, h9, h10]

/-- Witness for C9: a concrete navigate action produces the exact goto line,
and a concrete unrecognized name produces the placeholder comment. -/
theorem c9_witness :
    (convertActionToPlaywrightCode
       ⟨none, some "navigate_to", some { url := some "https://x.test" }⟩ =
      some ("await page.goto('" ++ "https://x.test" ++ "');") ∧
     actionLine
       ⟨none, some "navigate_to", some { url := some "https://x.test" }⟩ =
      "  " ++ ("await page.goto('" ++ "https://x.test" ++ "');") ++ "\n") ∧
    convertActionToPlaywrightCode ⟨none, some "custom_tool", some {}⟩ =
      some ("// Unsupported action: " ++ "custom_tool") :=
  ⟨(c9_translation_table).1 { url := some "https://x.test" }
     "https://x.test" rfl,
   (c9_translation_table).2.2 "custom_tool" {} (by decide)⟩

end PWMCP
